import Mathlib

/-!
Shallow embedding of `src/spotify_client.py` (irarevalo2/Flask-REST-API).

The module is a small Spotify Web API client:
* `get_access_token` caches an OAuth client-credentials token in the module
  globals `_ACCESS_TOKEN : Optional[str]` and `_ACCESS_TOKEN_EXPIRES_AT : float`;
* `get_track_info` / `get_artist_info` fetch and project one resource;
* `validate_tracks_batch` / `validate_artists_batch` aggregate per-id lookups,
  swallowing every exception raised inside the loop body.

Modelling conventions:
* Python's exception channel is `Except SpotifyError`; each way the code can
  raise gets its own constructor (in Python, configuration failure and a
  non-200 token exchange share the class `SpotifyAuthError` but differ by
  message; `requests.HTTPError` from `raise_for_status` and transport-level
  `requests` exceptions are further classes).
* `time.time()` is an explicit `now : Int` argument; float timestamps are
  modelled by integers (only ordering, addition and subtraction matter here).
* The network is an oracle `Env`: the response each URL would produce,
  together with the module-level configuration constants
  `SPOTIFY_CLIENT_ID` / `SPOTIFY_CLIENT_SECRET` (read once at import time,
  hence fixed fields). An outcome is either an HTTP response
  (status + parsed JSON body) or a transport error (timeout etc., i.e.
  `requests` raised and no response object exists).
* JSON bodies are modelled by structures of `Option`-valued fields: `none`
  is an absent key (so Python's `payload.get(k)` is the field itself and
  `payload.get(k, d)` is `Option.getD`). String-valued fields are `String`,
  integer fields `Int`.
* Python truthiness of an `Optional[str]` (`if _ACCESS_TOKEN`,
  `if track_info.get("id")`) is `truthyOpt`: `some s` with `s ≠ ""`.
  A dict returned by a successful `get_track_info`/`get_artist_info` always
  has keys, so it is truthy; the empty dict `{}` (the 404 result) is falsy:
  `Option info` with `none` for `{}` captures exactly this.
* Each operation returns `(result, cacheState, httpTrace)`: the trace lists
  the outbound HTTP requests the call performed, in order, so "no network
  call happened" is `trace = []`.
-/

deriving instance DecidableEq for Except

namespace SpotifyClient

/-- Truthiness of a Python `Optional[str]`: `None` and `""` are falsy. -/
def truthyOpt : Option String → Bool
  | none => false
  | some s => s ≠ ""

/-- UTF-8 encoding of one code point, as `Nat` byte values
(models Python's `str.encode("utf-8")` per character). -/
def utf8Bytes (c : Char) : List Nat :=
  let n := c.toNat
  if n < 0x80 then [n]
  else if n < 0x800 then [0xC0 + n / 64, 0x80 + n % 64]
  else if n < 0x10000 then [0xE0 + n / 4096, 0x80 + (n / 64) % 64, 0x80 + n % 64]
  else [0xF0 + n / 262144, 0x80 + (n / 4096) % 64, 0x80 + (n / 64) % 64, 0x80 + n % 64]

/-- `s.encode("utf-8")` as a byte list. -/
def strBytes (s : String) : List Nat :=
  (s.toList.map utf8Bytes).flatten

/-- The base64 alphabet. -/
def b64Chars : List Char :=
  "ABCDEFGHIJKLMNOPQRSTUVWXYZabcdefghijklmnopqrstuvwxyz0123456789+/".toList

/-- Character for one 6-bit group. -/
def b64Char (n : Nat) : Char := b64Chars.getD n '='

/-- Standard base64 of a byte list (models `base64.b64encode`). -/
def b64EncodeList : List Nat → List Char
  | [] => []
  | [a] => [b64Char (a / 4), b64Char (a % 4 * 16), '=', '=']
  | [a, b] => [b64Char (a / 4), b64Char (a % 4 * 16 + b / 16), b64Char (b % 16 * 4), '=']
  | a :: b :: c :: rest =>
      b64Char (a / 4) :: b64Char (a % 4 * 16 + b / 16) ::
      b64Char (b % 16 * 4 + c / 64) :: b64Char (c % 64) :: b64EncodeList rest

/-- `base64.b64encode(bytes).decode("utf-8")`. -/
def b64encode (bytes : List Nat) : String :=
  String.mk (b64EncodeList bytes)

/-- The distinct ways `spotify_client.py` can raise. -/
inductive SpotifyError where
  /-- `SpotifyAuthError` from `_get_basic_auth_header`: `SPOTIFY_CLIENT_ID` or
  `SPOTIFY_CLIENT_SECRET` not configured. -/
  | configError
  /-- `SpotifyAuthError` from `get_access_token`: token endpoint answered with
  a status other than 200. -/
  | authExchangeError (status : Nat)
  /-- `requests.HTTPError` raised by `resp.raise_for_status()` on a 4xx/5xx. -/
  | catalogError (status : Nat)
  /-- A transport-level `requests` exception (timeout, connection error, ...):
  the request was issued but no response object was obtained. -/
  | netError
deriving DecidableEq, Repr

/-- Outcome of one HTTP request: a response (status code plus parsed body),
or a transport failure. -/
inductive HttpOutcome (α : Type) where
  | resp (status : Nat) (body : α)
  | netError
deriving DecidableEq, Repr

/-- JSON body of a 200 response from the token endpoint; only the consumed
fields are modelled. -/
structure TokenPayload where
  access_token : Option String
  expires_in : Option Int
deriving DecidableEq, Repr

/-- Nested `album` object of a track body. -/
structure AlbumObj where
  id : Option String
  name : Option String
deriving DecidableEq, Repr

/-- One element of a track body's `artists` array. -/
structure ArtistObj where
  id : Option String
  name : Option String
deriving DecidableEq, Repr

/-- JSON body of a track response, restricted to the consumed fields.
`artists = none` models an absent `artists` key (default `[]` in the code);
likewise `album = none` models an absent `album` key (default `{}`). -/
structure TrackData where
  id : Option String
  name : Option String
  duration_ms : Option Int
  explicit : Option Bool
  preview_url : Option String
  album : Option AlbumObj
  artists : Option (List ArtistObj)
deriving DecidableEq, Repr

/-- Nested `followers` object of an artist body. -/
structure FollowersObj where
  total : Option Int
deriving DecidableEq, Repr

/-- JSON body of an artist response, restricted to the consumed fields. -/
structure ArtistData where
  id : Option String
  name : Option String
  genres : Option (List String)
  popularity : Option Int
  followers : Option FollowersObj
deriving DecidableEq, Repr

/-- The dict built by a successful `get_track_info` (its keys are always
present; values may be `None`). -/
structure TrackInfo where
  id : Option String
  name : Option String
  duration_ms : Option Int
  explicit : Option Bool
  preview_url : Option String
  album_id : Option String
  album_name : Option String
  artists : List ArtistObj
deriving DecidableEq, Repr

/-- The dict built by a successful `get_artist_info`. -/
structure ArtistInfo where
  id : Option String
  name : Option String
  genres : List String
  popularity : Option Int
  followers : Option Int
deriving DecidableEq, Repr

/-- The projection `get_track_info` applies to a track body (lines 74-91). -/
def projectTrack (d : TrackData) : TrackInfo :=
  { id := d.id
    name := d.name
    duration_ms := d.duration_ms
    explicit := d.explicit
    preview_url := d.preview_url
    album_id := (d.album.getD ⟨none, none⟩).id
    album_name := (d.album.getD ⟨none, none⟩).name
    artists := (d.artists.getD []).map fun a => ⟨a.id, a.name⟩ }

/-- The projection `get_artist_info` applies to an artist body (lines 101-107). -/
def projectArtist (d : ArtistData) : ArtistInfo :=
  { id := d.id
    name := d.name
    genres := d.genres.getD []
    popularity := d.popularity
    followers := (d.followers.getD ⟨none⟩).total }

/-- The world the client talks to: the module-level configuration constants
and the outcome each request would produce. Responses are keyed by the
resource id in the URL. -/
structure Env where
  /-- `SPOTIFY_CLIENT_ID` (`os.getenv`: `none` if unset). -/
  clientId : Option String
  /-- `SPOTIFY_CLIENT_SECRET`. -/
  clientSecret : Option String
  /-- Outcome of `POST TOKEN_URL`. -/
  tokenResp : HttpOutcome TokenPayload
  /-- Outcome of `GET {BASE_API_URL}/tracks/{id}`. -/
  trackResp : String → HttpOutcome TrackData
  /-- Outcome of `GET {BASE_API_URL}/artists/{id}`. -/
  artistResp : String → HttpOutcome ArtistData

/-- The configuration guard of `_get_basic_auth_header` (line 26):
`SPOTIFY_CLIENT_ID` and `SPOTIFY_CLIENT_SECRET` are both truthy. -/
def configOk (env : Env) : Bool :=
  truthyOpt env.clientId && truthyOpt env.clientSecret

/-- The module's mutable cache: `_ACCESS_TOKEN` and `_ACCESS_TOKEN_EXPIRES_AT`. -/
structure CacheState where
  accessToken : Option String
  expiresAt : Int
deriving DecidableEq, Repr

/-- The cache at import time: `_ACCESS_TOKEN = None`,
`_ACCESS_TOKEN_EXPIRES_AT = 0.0`. -/
def initState : CacheState := ⟨none, 0⟩

/-- The cache-hit condition of `get_access_token` (line 39):
`_ACCESS_TOKEN and now < _ACCESS_TOKEN_EXPIRES_AT`. -/
def cacheHit (now : Int) (st : CacheState) : Bool :=
  truthyOpt st.accessToken && decide (now < st.expiresAt)

/-- One outbound HTTP request, for the call traces. -/
inductive HttpRequest where
  | postToken
  | getTrack (id : String)
  | getArtist (id : String)
deriving DecidableEq, Repr

/-- `_get_basic_auth_header` (lines 25-31): raises `SpotifyAuthError` when
either configuration constant is missing or empty, else returns
`base64(id:secret)`. -/
def get_basic_auth_header (env : Env) : Except SpotifyError String :=
  if configOk env then
    .ok (b64encode (strBytes ((env.clientId.getD "") ++ ":" ++ (env.clientSecret.getD ""))))
  else
    .error .configError

/-- `get_access_token` (lines 34-59). Returns the result (`.error` = raised),
the new global cache state, and the outbound requests performed. On the
cache-hit branch `_ACCESS_TOKEN` is a truthy string, so `getD ""` returns it
unchanged; the fresh branch returns `_ACCESS_TOKEN or ""`. -/
def get_access_token (env : Env) (now : Int) (st : CacheState) :
    Except SpotifyError String × CacheState × List HttpRequest :=
  if cacheHit now st then
    (.ok (st.accessToken.getD ""), st, [])
  else
    match get_basic_auth_header env with
    | .error e => (.error e, st, [])
    | .ok _header =>
      match env.tokenResp with
      | .netError => (.error .netError, st, [.postToken])
      | .resp status payload =>
        if status ≠ 200 then
          (.error (.authExchangeError status), st, [.postToken])
        else
          let expiresIn := payload.expires_in.getD 3600
          (.ok (payload.access_token.getD ""),
           ⟨payload.access_token, now + expiresIn - 30⟩,
           [.postToken])

/-- `resp.raise_for_status()` raises exactly for status codes 400-599. -/
def raisesForStatus (status : Nat) : Bool :=
  400 ≤ status && status < 600

/-- `get_track_info` (lines 67-91). `.ok none` is the empty dict returned on
404; `.ok (some info)` the projected record. Note `_auth_headers` runs (and
may update the cache) before the GET is issued. -/
def get_track_info (env : Env) (now : Int) (st : CacheState) (trackId : String) :
    Except SpotifyError (Option TrackInfo) × CacheState × List HttpRequest :=
  match get_access_token env now st with
  | (.error e, st', tr) => (.error e, st', tr)
  | (.ok _token, st', tr) =>
    match env.trackResp trackId with
    | .netError => (.error .netError, st', tr ++ [.getTrack trackId])
    | .resp status body =>
      if status = 404 then
        (.ok none, st', tr ++ [.getTrack trackId])
      else if raisesForStatus status then
        (.error (.catalogError status), st', tr ++ [.getTrack trackId])
      else
        (.ok (some (projectTrack body)), st', tr ++ [.getTrack trackId])

/-- `get_artist_info` (lines 94-107), symmetric to `get_track_info`. -/
def get_artist_info (env : Env) (now : Int) (st : CacheState) (artistId : String) :
    Except SpotifyError (Option ArtistInfo) × CacheState × List HttpRequest :=
  match get_access_token env now st with
  | (.error e, st', tr) => (.error e, st', tr)
  | (.ok _token, st', tr) =>
    match env.artistResp artistId with
    | .netError => (.error .netError, st', tr ++ [.getArtist artistId])
    | .resp status body =>
      if status = 404 then
        (.ok none, st', tr ++ [.getArtist artistId])
      else if raisesForStatus status then
        (.error (.catalogError status), st', tr ++ [.getArtist artistId])
      else
        (.ok (some (projectArtist body)), st', tr ++ [.getArtist artistId])

/-- A `{"id": ..., "name": ...}` value of the batch-validation dicts. -/
structure ValidEntry where
  id : String
  name : String
deriving DecidableEq, Repr

/-- Reading a key of the result dict (`m[k]`, first — and only — entry whose
key is `k`). -/
def dictLookup (k : String) : List (String × ValidEntry) → Option ValidEntry
  | [] => none
  | (a, b) :: t => if k = a then some b else dictLookup k t

/-- `valid_tracks[track_id] = v`: Python dict assignment keeps the original
insertion position of an existing key and appends a fresh key. -/
def dictInsert (m : List (String × ValidEntry)) (k : String) (v : ValidEntry) :
    List (String × ValidEntry) :=
  if m.any (fun p => p.1 = k) then
    m.map fun p => if p.1 = k then (k, v) else p
  else
    m ++ [(k, v)]

/-- The loop of `validate_tracks_batch` (lines 116-126): per id, call
`get_track_info`; a raise (`.error`) is caught and skipped (`except
Exception: continue`), an empty dict or a record whose `id`/`name` is falsy
is skipped by the `if`; otherwise `{id, name}` is stored under the input id.
The cache state is threaded through: a raise after a successful token
exchange still keeps the updated cache. -/
def validateTracksLoop (env : Env) (now : Int) :
    CacheState → List String → List (String × ValidEntry) →
      CacheState × List (String × ValidEntry)
  | st, [], acc => (st, acc)
  | st, trackId :: rest, acc =>
    match get_track_info env now st trackId with
    | (.ok (some info), st', _) =>
      if truthyOpt info.id && truthyOpt info.name then
        validateTracksLoop env now st' rest
          (dictInsert acc trackId ⟨info.id.getD "", info.name.getD ""⟩)
      else
        validateTracksLoop env now st' rest acc
    | (.ok none, st', _) => validateTracksLoop env now st' rest acc
    | (.error _, st', _) => validateTracksLoop env now st' rest acc

/-- `validate_tracks_batch` (lines 110-127). The `Except` layer is Python's
exception channel: the body catches every per-item exception, and nothing
outside the `try` can raise, so no `.error` is ever produced — which is
exactly what the theorems below establish. -/
def validate_tracks_batch (env : Env) (now : Int) (st : CacheState)
    (trackIds : List String) :
    Except SpotifyError (CacheState × List (String × ValidEntry)) :=
  .ok (validateTracksLoop env now st trackIds [])

/-- The loop of `validate_artists_batch` (lines 136-146). -/
def validateArtistsLoop (env : Env) (now : Int) :
    CacheState → List String → List (String × ValidEntry) →
      CacheState × List (String × ValidEntry)
  | st, [], acc => (st, acc)
  | st, artistId :: rest, acc =>
    match get_artist_info env now st artistId with
    | (.ok (some info), st', _) =>
      if truthyOpt info.id && truthyOpt info.name then
        validateArtistsLoop env now st' rest
          (dictInsert acc artistId ⟨info.id.getD "", info.name.getD ""⟩)
      else
        validateArtistsLoop env now st' rest acc
    | (.ok none, st', _) => validateArtistsLoop env now st' rest acc
    | (.error _, st', _) => validateArtistsLoop env now st' rest acc

/-- `validate_artists_batch` (lines 130-147). -/
def validate_artists_batch (env : Env) (now : Int) (st : CacheState)
    (artistIds : List String) :
    Except SpotifyError (CacheState × List (String × ValidEntry)) :=
  .ok (validateArtistsLoop env now st artistIds [])

/-! ### Derived observations used by the theorems -/

/-- Whether a call to `get_access_token` succeeds (does not raise). -/
def authOk (env : Env) (now : Int) (st : CacheState) : Bool :=
  match (get_access_token env now st).1 with
  | .ok _ => true
  | .error _ => false

/-- The token endpoint would answer 200. -/
def exchange200 (env : Env) : Bool :=
  match env.tokenResp with
  | .resp 200 _ => true
  | _ => false

/-- The part of `get_track_info`'s returned/raised value that is a function of
the response oracle and the token-acquisition result alone. -/
def trackFetchResult (env : Env) (k : String) :
    Except SpotifyError String → Except SpotifyError (Option TrackInfo)
  | .error e => .error e
  | .ok _ =>
    match env.trackResp k with
    | .netError => .error .netError
    | .resp status body =>
      if status = 404 then .ok none
      else if raisesForStatus status then .error (.catalogError status)
      else .ok (some (projectTrack body))

/-- Artist analogue of `trackFetchResult`. -/
def artistFetchResult (env : Env) (k : String) :
    Except SpotifyError String → Except SpotifyError (Option ArtistInfo)
  | .error e => .error e
  | .ok _ =>
    match env.artistResp k with
    | .netError => .error .netError
    | .resp status body =>
      if status = 404 then .ok none
      else if raisesForStatus status then .error (.catalogError status)
      else .ok (some (projectArtist body))

/-- The per-identifier fetch for `k` ends in a skipped iteration of
`validate_tracks_batch`: it raises, returns the empty dict, or returns a
record whose `id` or `name` is falsy. -/
def trackFetchFails (env : Env) (now : Int) (s : CacheState) (k : String) : Bool :=
  match (get_track_info env now s k).1 with
  | .error _ => true
  | .ok none => true
  | .ok (some info) => !(truthyOpt info.id && truthyOpt info.name)

/-- Artist analogue of `trackFetchFails`. -/
def artistFetchFails (env : Env) (now : Int) (s : CacheState) (k : String) : Bool :=
  match (get_artist_info env now s k).1 with
  | .error _ => true
  | .ok none => true
  | .ok (some info) => !(truthyOpt info.id && truthyOpt info.name)

/-- The response the service would give for track `k` guarantees a skipped
iteration whatever the token-acquisition outcome: transport error, 404,
a raising status, or a body with falsy `id`/`name`. -/
def trackRespFails (env : Env) (k : String) : Bool :=
  match env.trackResp k with
  | .netError => true
  | .resp status body =>
      status == 404 || raisesForStatus status ||
        !(truthyOpt (projectTrack body).id && truthyOpt (projectTrack body).name)

/-- Artist analogue of `trackRespFails`. -/
def artistRespFails (env : Env) (k : String) : Bool :=
  match env.artistResp k with
  | .netError => true
  | .resp status body =>
      status == 404 || raisesForStatus status ||
        !(truthyOpt (projectArtist body).id && truthyOpt (projectArtist body).name)

/-- A successfully validated batch entry for `k`, as claimed by the spec: a
single `get_track_info` call from the same starting state returns a record
whose (non-empty) `id` and `name` are exactly the stored pair. -/
def goodTrackEntry (env : Env) (now : Int) (st : CacheState) (k : String)
    (v : ValidEntry) : Prop :=
  ∃ info, (get_track_info env now st k).1 = .ok (some info) ∧
    info.id = some v.id ∧ v.id ≠ "" ∧ info.name = some v.name ∧ v.name ≠ ""

/-- States the batch loop can be in, relative to its starting state `st`:
either the cache was never rewritten, or the (fixed) token endpoint answers
200 with the configuration present — the only way the loop rewrites it. -/
def batchInv (env : Env) (st s : CacheState) : Prop :=
  s = st ∨ (configOk env = true ∧ ∃ p, env.tokenResp = .resp 200 p)

/-- The raw declared expiry of a cached credential: the code stores
`_ACCESS_TOKEN_EXPIRES_AT = now + expires_in - 30` (line 57), so acquisition
time plus `expires_in` is the stored expiry plus the 30-second margin. -/
def rawExpiry (st : CacheState) : Int := st.expiresAt + 30

/-- Cache states arising in a run of the module whose import-time
configuration constants are `cid`/`csec`: the import-time initial state,
extended by any public operation, at any time, against any oracle with those
constants. Only `get_access_token` ever writes the globals; the other
operations reach it through `_auth_headers`. -/
inductive Reachable (cid csec : Option String) : CacheState → Prop where
  | init : Reachable cid csec initState
  | stepToken (env : Env) (now : Int) (st : CacheState) :
      Reachable cid csec st → env.clientId = cid → env.clientSecret = csec →
      Reachable cid csec (get_access_token env now st).2.1
  | stepTrack (env : Env) (now : Int) (st : CacheState) (k : String) :
      Reachable cid csec st → env.clientId = cid → env.clientSecret = csec →
      Reachable cid csec (get_track_info env now st k).2.1
  | stepArtist (env : Env) (now : Int) (st : CacheState) (k : String) :
      Reachable cid csec st → env.clientId = cid → env.clientSecret = csec →
      Reachable cid csec (get_artist_info env now st k).2.1
  | stepTracksBatch (env : Env) (now : Int) (st st' : CacheState)
      (ids : List String) (m : List (String × ValidEntry)) :
      Reachable cid csec st → env.clientId = cid → env.clientSecret = csec →
      validate_tracks_batch env now st ids = .ok (st', m) →
      Reachable cid csec st'
  | stepArtistsBatch (env : Env) (now : Int) (st st' : CacheState)
      (ids : List String) (m : List (String × ValidEntry)) :
      Reachable cid csec st → env.clientId = cid → env.clientSecret = csec →
      validate_artists_batch env now st ids = .ok (st', m) →
      Reachable cid csec st'

/-! ### Concrete environments for witnesses and counterexamples -/

/-- A full track body (the spec's §8 scenario track). -/
def sampleTrackBody : TrackData :=
  { id := some "4uLU6hMCjMI75M1A2tKUQC"
    name := some "Never Gonna Give You Up"
    duration_ms := some 213573
    explicit := some false
    preview_url := none
    album := some ⟨some "6XhjNHCyCDyyGJRM5mg40G", some "Whenever You Need Somebody"⟩
    artists := some [⟨some "0gxyHStUsqpMadRV0Di1Qt", some "Rick Astley"⟩] }

/-- A full artist body. -/
def sampleArtistBody : ArtistData :=
  { id := some "0gxyHStUsqpMadRV0Di1Qt"
    name := some "Rick Astley"
    genres := some ["dance pop"]
    popularity := some 82
    followers := some ⟨some 2000000⟩ }

/-- Configured credentials, healthy token endpoint, one known track and
artist id, everything else 404. -/
def envGood : Env :=
  { clientId := some "cid"
    clientSecret := some "secret"
    tokenResp := .resp 200 ⟨some "tok", some 3600⟩
    trackResp := fun tid =>
      if tid = "4uLU6hMCjMI75M1A2tKUQC" then .resp 200 sampleTrackBody
      else .resp 404 sampleTrackBody
    artistResp := fun aid =>
      if aid = "0gxyHStUsqpMadRV0Di1Qt" then .resp 200 sampleArtistBody
      else .resp 404 sampleArtistBody }

/-- Both configuration constants missing. -/
def envNoConfig : Env :=
  { clientId := none
    clientSecret := none
    tokenResp := .netError
    trackResp := fun _ => .netError
    artistResp := fun _ => .netError }

/-- Token endpoint declares a zero-second lifetime. -/
def envShortLife : Env :=
  { clientId := some "cid"
    clientSecret := some "secret"
    tokenResp := .resp 200 ⟨some "tok", some 0⟩
    trackResp := fun _ => .resp 404 sampleTrackBody
    artistResp := fun _ => .resp 404 sampleArtistBody }

/-- Token endpoint answers 200 but without an `access_token` field. -/
def envNoToken : Env :=
  { clientId := some "cid"
    clientSecret := some "secret"
    tokenResp := .resp 200 ⟨none, some 3600⟩
    trackResp := fun _ => .resp 404 sampleTrackBody
    artistResp := fun _ => .resp 404 sampleArtistBody }

/-- Every resource answers status 304 (non-2xx, non-404, not a
`raise_for_status` status) with a full body. -/
def env304 : Env :=
  { clientId := some "cid"
    clientSecret := some "secret"
    tokenResp := .resp 200 ⟨some "tok", some 3600⟩
    trackResp := fun _ => .resp 304 sampleTrackBody
    artistResp := fun _ => .resp 304 sampleArtistBody }

/-- Every resource answers status 403 with a full body. -/
def env403 : Env :=
  { clientId := some "cid"
    clientSecret := some "secret"
    tokenResp := .resp 200 ⟨some "tok", some 3600⟩
    trackResp := fun _ => .resp 403 sampleTrackBody
    artistResp := fun _ => .resp 403 sampleArtistBody }

/-! ### Branch lemmas for `get_access_token` -/

lemma get_basic_auth_header_ok (env : Env) (hc : configOk env = true) :
    get_basic_auth_header env =
      .ok (b64encode (strBytes ((env.clientId.getD "") ++ ":" ++
        (env.clientSecret.getD "")))) := by
  simp [get_basic_auth_header, hc]

lemma get_basic_auth_header_err (env : Env) (hc : configOk env = false) :
    get_basic_auth_header env = .error .configError := by
  simp [get_basic_auth_header, hc]

lemma gat_hit (env : Env) (now : Int) (st : CacheState)
    (h : cacheHit now st = true) :
    get_access_token env now st = (.ok (st.accessToken.getD ""), st, []) := by
  simp [get_access_token, h]

lemma gat_noConfig (env : Env) (now : Int) (st : CacheState)
    (h : cacheHit now st = false) (hc : configOk env = false) :
    get_access_token env now st = (.error .configError, st, []) := by
  simp [get_access_token, h, get_basic_auth_header_err env hc]

lemma gat_netError (env : Env) (now : Int) (st : CacheState)
    (h : cacheHit now st = false) (hc : configOk env = true)
    (ht : env.tokenResp = .netError) :
    get_access_token env now st = (.error .netError, st, [.postToken]) := by
  simp [get_access_token, h, get_basic_auth_header_ok env hc, ht]

lemma gat_badStatus (env : Env) (now : Int) (st : CacheState) (s : Nat)
    (p : TokenPayload) (h : cacheHit now st = false) (hc : configOk env = true)
    (ht : env.tokenResp = .resp s p) (hs : s ≠ 200) :
    get_access_token env now st =
      (.error (.authExchangeError s), st, [.postToken]) := by
  simp [get_access_token, h, get_basic_auth_header_ok env hc, ht, hs]

lemma gat_fresh (env : Env) (now : Int) (st : CacheState) (p : TokenPayload)
    (h : cacheHit now st = false) (hc : configOk env = true)
    (ht : env.tokenResp = .resp 200 p) :
    get_access_token env now st =
      (.ok (p.access_token.getD ""),
       ⟨p.access_token, now + p.expires_in.getD 3600 - 30⟩,
       [.postToken]) := by
  simp [get_access_token, h, get_basic_auth_header_ok env hc, ht]

/-- Exhaustive case analysis of one `get_access_token` call. -/
lemma gat_cases (env : Env) (now : Int) (st : CacheState) :
    (cacheHit now st = true ∧
      get_access_token env now st = (.ok (st.accessToken.getD ""), st, [])) ∨
    (cacheHit now st = false ∧ configOk env = false ∧
      get_access_token env now st = (.error .configError, st, [])) ∨
    (cacheHit now st = false ∧ configOk env = true ∧ env.tokenResp = .netError ∧
      get_access_token env now st = (.error .netError, st, [.postToken])) ∨
    (cacheHit now st = false ∧ configOk env = true ∧
      ∃ s p, env.tokenResp = .resp s p ∧ s ≠ 200 ∧
        get_access_token env now st =
          (.error (.authExchangeError s), st, [.postToken])) ∨
    (cacheHit now st = false ∧ configOk env = true ∧
      ∃ p, env.tokenResp = .resp 200 p ∧
        get_access_token env now st =
          (.ok (p.access_token.getD ""),
           ⟨p.access_token, now + p.expires_in.getD 3600 - 30⟩,
           [.postToken])) := by
  cases hh : cacheHit now st with
  | true => exact Or.inl ⟨rfl, gat_hit env now st hh⟩
  | false =>
    cases hc : configOk env with
    | false => exact Or.inr (Or.inl ⟨rfl, rfl, gat_noConfig env now st hh hc⟩)
    | true =>
      cases ht : env.tokenResp with
      | netError =>
        exact Or.inr (Or.inr (Or.inl ⟨rfl, rfl, rfl, gat_netError env now st hh hc ht⟩))
      | resp s p =>
        by_cases hs : s = 200
        · subst hs
          exact Or.inr (Or.inr (Or.inr (Or.inr
            ⟨rfl, rfl, p, rfl, gat_fresh env now st p hh hc ht⟩)))
        · exact Or.inr (Or.inr (Or.inr (Or.inl
            ⟨rfl, rfl, s, p, rfl, hs, gat_badStatus env now st s p hh hc ht hs⟩)))

/-- A raising `get_access_token` call leaves the cache unchanged. -/
lemma gat_error_state (env : Env) (now : Int) (st : CacheState)
    (e : SpotifyError) (h : (get_access_token env now st).1 = .error e) :
    (get_access_token env now st).2.1 = st := by
  rcases gat_cases env now st with ⟨_, hg⟩ | ⟨_, _, hg⟩ | ⟨_, _, _, hg⟩ |
    ⟨_, _, s, p, _, _, hg⟩ | ⟨_, _, p, _, hg⟩ <;> rw [hg] <;> rw [hg] at h <;>
    first | rfl | exact absurd h (by simp)

/-- A successful `get_access_token` call returns precisely the token it
leaves in the cache (up to the `or ""` of line 59). -/
lemma gat_ok_token (env : Env) (now : Int) (st : CacheState) (tok : String)
    (h : (get_access_token env now st).1 = .ok tok) :
    tok = ((get_access_token env now st).2.1).accessToken.getD "" := by
  rcases gat_cases env now st with ⟨_, hg⟩ | ⟨_, _, hg⟩ | ⟨_, _, _, hg⟩ |
    ⟨_, _, s, p, _, _, hg⟩ | ⟨_, _, p, _, hg⟩ <;> rw [hg] at h ⊢ <;>
    simp_all

/-- A successful `get_access_token` call was a cache hit or went through a
200 exchange with the configuration present. -/
lemma gat_ok_cases (env : Env) (now : Int) (st : CacheState) (tok : String)
    (h : (get_access_token env now st).1 = .ok tok) :
    cacheHit now st = true ∨
      (configOk env = true ∧ ∃ p, env.tokenResp = .resp 200 p) := by
  rcases gat_cases env now st with ⟨hh, hg⟩ | ⟨_, hc, hg⟩ | ⟨_, hc, _, hg⟩ |
    ⟨_, hc, s, p, _, _, hg⟩ | ⟨_, hc, p, hp, hg⟩
  · exact Or.inl hh
  · rw [hg] at h; exact absurd h (by simp)
  · rw [hg] at h; exact absurd h (by simp)
  · rw [hg] at h; exact absurd h (by simp)
  · exact Or.inr ⟨hc, p, hp⟩

/-- With the configuration present and a 200-answering token endpoint,
`get_access_token` succeeds from every state. -/
lemma gat_ok_of_exchange (env : Env) (now : Int) (st : CacheState)
    (p : TokenPayload) (hc : configOk env = true)
    (hp : env.tokenResp = .resp 200 p) :
    ∃ tok, (get_access_token env now st).1 = .ok tok := by
  cases hh : cacheHit now st with
  | true => exact ⟨st.accessToken.getD "", by rw [gat_hit env now st hh]⟩
  | false => exact ⟨p.access_token.getD "", by rw [gat_fresh env now st p hh hc hp]⟩

/-- Every cache miss with the configuration present performs exactly one
token-exchange request. -/
lemma gat_miss_trace (env : Env) (now : Int) (st : CacheState)
    (h : cacheHit now st = false) (hc : configOk env = true) :
    (get_access_token env now st).2.2 = [.postToken] := by
  rcases gat_cases env now st with ⟨hh, hg⟩ | ⟨_, hc2, hg⟩ | ⟨_, _, _, hg⟩ |
    ⟨_, _, s, p, _, _, hg⟩ | ⟨_, _, p, _, hg⟩ <;> rw [hg] <;> simp_all

/-! ### Decomposition of the fetch operations -/

lemma get_track_info_fst (env : Env) (now : Int) (st : CacheState) (k : String) :
    (get_track_info env now st k).1 =
      trackFetchResult env k (get_access_token env now st).1 := by
  unfold get_track_info trackFetchResult
  rcases hg : get_access_token env now st with ⟨r, st', tr⟩
  cases r with
  | error e => rfl
  | ok t => cases env.trackResp k with
    | netError => rfl
    | resp status body =>
      by_cases h4 : status = 404 <;> by_cases hr : raisesForStatus status <;>
        simp [h4, hr]

lemma get_track_info_state (env : Env) (now : Int) (st : CacheState) (k : String) :
    (get_track_info env now st k).2.1 = (get_access_token env now st).2.1 := by
  unfold get_track_info
  rcases hg : get_access_token env now st with ⟨r, st', tr⟩
  cases r with
  | error e => rfl
  | ok t => cases env.trackResp k with
    | netError => rfl
    | resp status body =>
      by_cases h4 : status = 404 <;> by_cases hr : raisesForStatus status <;>
        simp [h4, hr]

lemma get_artist_info_fst (env : Env) (now : Int) (st : CacheState) (k : String) :
    (get_artist_info env now st k).1 =
      artistFetchResult env k (get_access_token env now st).1 := by
  unfold get_artist_info artistFetchResult
  rcases hg : get_access_token env now st with ⟨r, st', tr⟩
  cases r with
  | error e => rfl
  | ok t => cases env.artistResp k with
    | netError => rfl
    | resp status body =>
      by_cases h4 : status = 404 <;> by_cases hr : raisesForStatus status <;>
        simp [h4, hr]

lemma get_artist_info_state (env : Env) (now : Int) (st : CacheState) (k : String) :
    (get_artist_info env now st k).2.1 = (get_access_token env now st).2.1 := by
  unfold get_artist_info
  rcases hg : get_access_token env now st with ⟨r, st', tr⟩
  cases r with
  | error e => rfl
  | ok t => cases env.artistResp k with
    | netError => rfl
    | resp status body =>
      by_cases h4 : status = 404 <;> by_cases hr : raisesForStatus status <;>
        simp [h4, hr]

/-! ### Dictionary lemmas -/

lemma truthyOpt_eq_some (o : Option String) (h : truthyOpt o = true) :
    o = some (o.getD "") ∧ o.getD "" ≠ "" := by
  cases o with
  | none => simp [truthyOpt] at h
  | some s => simpa [truthyOpt] using h

lemma lookup_map_replace_ne (k k' : String) (v : ValidEntry) (h : k' ≠ k) :
    ∀ m : List (String × ValidEntry),
      dictLookup k' (m.map fun p => if p.1 = k then (k, v) else p) =
        dictLookup k' m
  | [] => rfl
  | (a, b) :: t => by
    have hmap : ((a, b) :: t).map (fun p => if p.1 = k then (k, v) else p) =
        (if a = k then (k, v) else (a, b)) ::
          t.map (fun p => if p.1 = k then (k, v) else p) := rfl
    rw [hmap]
    by_cases ha : a = k
    · rw [if_pos ha, ha]
      simp [dictLookup, h, lookup_map_replace_ne k k' v h t]
    · rw [if_neg ha]
      by_cases hk : k' = a <;>
        simp [dictLookup, hk, lookup_map_replace_ne k k' v h t]

lemma dictInsert_cons_ne (a : String) (b : ValidEntry)
    (t : List (String × ValidEntry)) (k : String) (v : ValidEntry)
    (h : a ≠ k) : dictInsert ((a, b) :: t) k v = (a, b) :: dictInsert t k v := by
  by_cases ht : t.any (fun p => p.1 = k) <;> simp [dictInsert, h, ht]

lemma dictInsert_cons_eq (b : ValidEntry) (t : List (String × ValidEntry))
    (k : String) (v : ValidEntry) :
    dictInsert ((k, b) :: t) k v =
      (k, v) :: t.map fun p => if p.1 = k then (k, v) else p := by
  simp [dictInsert]

/-- Lookup after a Python-style dict assignment. -/
lemma dictInsert_lookup (m : List (String × ValidEntry)) (k : String)
    (v : ValidEntry) (k' : String) :
    dictLookup k' (dictInsert m k v) =
      if k' = k then some v else dictLookup k' m := by
  induction m with
  | nil => by_cases h : k' = k <;> simp [dictInsert, dictLookup, h]
  | cons hd t ih =>
    obtain ⟨a, b⟩ := hd
    by_cases hak : a = k
    · subst hak
      rw [dictInsert_cons_eq]
      by_cases h : k' = a
      · simp [dictLookup, h]
      · simp [dictLookup, h, lookup_map_replace_ne a k' v h t]
    · rw [dictInsert_cons_ne a b t k v hak]
      simp only [dictLookup]
      rw [ih]
      by_cases hk : k' = k <;> by_cases h : k' = a
      · exact absurd (h.symm.trans hk) hak
      · simp [hk, h, Ne.symm hak]
      · simp [hk, h, hak]
      · simp [hk, h]

/-! ### Loop lemmas for the batch validators -/

/-- One iteration's cache update preserves `batchInv`. -/
lemma batchInv_step (env : Env) (now : Int) (st s : CacheState)
    (h : batchInv env st s) :
    batchInv env st (get_access_token env now s).2.1 := by
  rcases gat_cases env now s with ⟨_, hg⟩ | ⟨_, _, hg⟩ | ⟨_, _, _, hg⟩ |
    ⟨_, _, s2, p, _, _, hg⟩ | ⟨_, hc, p, hp, hg⟩ <;> rw [hg]
  · exact h
  · exact h
  · exact h
  · exact h
  · exact Or.inr ⟨hc, p, hp⟩

/-- The fetch result only depends on the token-acquisition result through
success/failure, never through the token string. -/
lemma trackFetchResult_ok (env : Env) (k : String) (t t' : String) :
    trackFetchResult env k (.ok t) = trackFetchResult env k (.ok t') := rfl

lemma artistFetchResult_ok (env : Env) (k : String) (t t' : String) :
    artistFetchResult env k (.ok t) = artistFetchResult env k (.ok t') := rfl

/-- A fetch that produced a record at some loop state produces the same
record from the loop's starting state. -/
lemma track_ok_stable (env : Env) (now : Int) (st s : CacheState) (k : String)
    (info : TrackInfo) (hinv : batchInv env st s)
    (h : (get_track_info env now s k).1 = .ok (some info)) :
    (get_track_info env now st k).1 = .ok (some info) := by
  rcases hinv with rfl | ⟨hc, p, hp⟩
  · exact h
  · rw [get_track_info_fst] at h ⊢
    obtain ⟨tok, htok⟩ := gat_ok_of_exchange env now st p hc hp
    rw [htok]
    rcases hg : (get_access_token env now s).1 with e | t
    · rw [hg] at h; exact absurd h (by simp [trackFetchResult])
    · rw [hg] at h; rw [trackFetchResult_ok env k tok t]; exact h

/-- Artist analogue of `track_ok_stable`. -/
lemma artist_ok_stable (env : Env) (now : Int) (st s : CacheState) (k : String)
    (info : ArtistInfo) (hinv : batchInv env st s)
    (h : (get_artist_info env now s k).1 = .ok (some info)) :
    (get_artist_info env now st k).1 = .ok (some info) := by
  rcases hinv with rfl | ⟨hc, p, hp⟩
  · exact h
  · rw [get_artist_info_fst] at h ⊢
    obtain ⟨tok, htok⟩ := gat_ok_of_exchange env now st p hc hp
    rw [htok]
    rcases hg : (get_access_token env now s).1 with e | t
    · rw [hg] at h; exact absurd h (by simp [artistFetchResult])
    · rw [hg] at h; rw [artistFetchResult_ok env k tok t]; exact h

/-! ### Equation lemmas for the batch loops -/

lemma validateTracksLoop_cons_error (env : Env) (now : Int) (s s' : CacheState)
    (i : String) (rest : List String) (acc : List (String × ValidEntry))
    (e : SpotifyError) (tr : List HttpRequest)
    (hf : get_track_info env now s i = (.error e, s', tr)) :
    validateTracksLoop env now s (i :: rest) acc =
      validateTracksLoop env now s' rest acc := by
  simp only [validateTracksLoop]
  rw [hf]

lemma validateTracksLoop_cons_none (env : Env) (now : Int) (s s' : CacheState)
    (i : String) (rest : List String) (acc : List (String × ValidEntry))
    (tr : List HttpRequest)
    (hf : get_track_info env now s i = (.ok none, s', tr)) :
    validateTracksLoop env now s (i :: rest) acc =
      validateTracksLoop env now s' rest acc := by
  simp only [validateTracksLoop]
  rw [hf]

lemma validateTracksLoop_cons_some (env : Env) (now : Int) (s s' : CacheState)
    (i : String) (rest : List String) (acc : List (String × ValidEntry))
    (info : TrackInfo) (tr : List HttpRequest)
    (hf : get_track_info env now s i = (.ok (some info), s', tr)) :
    validateTracksLoop env now s (i :: rest) acc =
      if truthyOpt info.id && truthyOpt info.name then
        validateTracksLoop env now s' rest
          (dictInsert acc i ⟨info.id.getD "", info.name.getD ""⟩)
      else
        validateTracksLoop env now s' rest acc := by
  simp only [validateTracksLoop]
  rw [hf]

lemma validateArtistsLoop_cons_error (env : Env) (now : Int) (s s' : CacheState)
    (i : String) (rest : List String) (acc : List (String × ValidEntry))
    (e : SpotifyError) (tr : List HttpRequest)
    (hf : get_artist_info env now s i = (.error e, s', tr)) :
    validateArtistsLoop env now s (i :: rest) acc =
      validateArtistsLoop env now s' rest acc := by
  simp only [validateArtistsLoop]
  rw [hf]

lemma validateArtistsLoop_cons_none (env : Env) (now : Int) (s s' : CacheState)
    (i : String) (rest : List String) (acc : List (String × ValidEntry))
    (tr : List HttpRequest)
    (hf : get_artist_info env now s i = (.ok none, s', tr)) :
    validateArtistsLoop env now s (i :: rest) acc =
      validateArtistsLoop env now s' rest acc := by
  simp only [validateArtistsLoop]
  rw [hf]

lemma validateArtistsLoop_cons_some (env : Env) (now : Int) (s s' : CacheState)
    (i : String) (rest : List String) (acc : List (String × ValidEntry))
    (info : ArtistInfo) (tr : List HttpRequest)
    (hf : get_artist_info env now s i = (.ok (some info), s', tr)) :
    validateArtistsLoop env now s (i :: rest) acc =
      if truthyOpt info.id && truthyOpt info.name then
        validateArtistsLoop env now s' rest
          (dictInsert acc i ⟨info.id.getD "", info.name.getD ""⟩)
      else
        validateArtistsLoop env now s' rest acc := by
  simp only [validateArtistsLoop]
  rw [hf]

/-! ### Master lemmas for the batch loops -/

/-- Anything found in the loop's output dict was in the accumulator already,
or is one of the remaining input ids mapped to the `{id, name}` of the record
that a single fetch from the loop's starting state returns. -/
lemma validateTracksLoop_lookup (env : Env) (now : Int) (st : CacheState)
    (ids : List String) :
    ∀ (s : CacheState) (acc : List (String × ValidEntry)),
      batchInv env st s →
      ∀ k v, dictLookup k (validateTracksLoop env now s ids acc).2 = some v →
        dictLookup k acc = some v ∨ (k ∈ ids ∧ goodTrackEntry env now st k v) := by
  induction ids with
  | nil => intro s acc _ k v h; exact Or.inl h
  | cons i rest ih =>
    intro s acc hinv k v h
    rcases hf : get_track_info env now s i with ⟨r, s', tr⟩
    have hs' : batchInv env st s' := by
      have he : s' = (get_access_token env now s).2.1 := by
        rw [← get_track_info_state env now s i, hf]
      rw [he]; exact batchInv_step env now st s hinv
    cases r with
    | error e =>
      rw [validateTracksLoop_cons_error env now s s' i rest acc e tr hf] at h
      rcases ih s' acc hs' k v h with hl | ⟨hm, hgood⟩
      · exact Or.inl hl
      · exact Or.inr ⟨List.mem_cons_of_mem i hm, hgood⟩
    | ok o =>
      cases o with
      | none =>
        rw [validateTracksLoop_cons_none env now s s' i rest acc tr hf] at h
        rcases ih s' acc hs' k v h with hl | ⟨hm, hgood⟩
        · exact Or.inl hl
        · exact Or.inr ⟨List.mem_cons_of_mem i hm, hgood⟩
      | some info =>
        rw [validateTracksLoop_cons_some env now s s' i rest acc info tr hf] at h
        by_cases hg : (truthyOpt info.id && truthyOpt info.name) = true
        · rw [if_pos hg] at h
          rcases ih s' _ hs' k v h with hl | ⟨hm, hgood⟩
          · rw [dictInsert_lookup] at hl
            by_cases hki : k = i
            · rw [if_pos hki] at hl
              have hv : v = ⟨info.id.getD "", info.name.getD ""⟩ :=
                (Option.some.inj hl).symm
              rw [Bool.and_eq_true] at hg
              obtain ⟨hgi, hgn⟩ := hg
              have hstable : (get_track_info env now st k).1 = .ok (some info) := by
                subst hki
                exact track_ok_stable env now st s k info hinv (by rw [hf])
              refine Or.inr ⟨hki ▸ List.mem_cons_self i rest, info, hstable, ?_, ?_, ?_, ?_⟩
              · rw [hv]; exact (truthyOpt_eq_some info.id hgi).1
              · rw [hv]; exact (truthyOpt_eq_some info.id hgi).2
              · rw [hv]; exact (truthyOpt_eq_some info.name hgn).1
              · rw [hv]; exact (truthyOpt_eq_some info.name hgn).2
            · rw [if_neg hki] at hl
              exact Or.inl hl
          · exact Or.inr ⟨List.mem_cons_of_mem i hm, hgood⟩
        · rw [if_neg hg] at h
          rcases ih s' acc hs' k v h with hl | ⟨hm, hgood⟩
          · exact Or.inl hl
          · exact Or.inr ⟨List.mem_cons_of_mem i hm, hgood⟩

/-- Artist analogue of `validateTracksLoop_lookup`. -/
lemma validateArtistsLoop_lookup (env : Env) (now : Int) (st : CacheState)
    (ids : List String) :
    ∀ (s : CacheState) (acc : List (String × ValidEntry)),
      batchInv env st s →
      ∀ k v, dictLookup k (validateArtistsLoop env now s ids acc).2 = some v →
        dictLookup k acc = some v ∨
          (k ∈ ids ∧ ∃ info, (get_artist_info env now st k).1 = .ok (some info) ∧
            info.id = some v.id ∧ v.id ≠ "" ∧ info.name = some v.name ∧
            v.name ≠ "") := by
  induction ids with
  | nil => intro s acc _ k v h; exact Or.inl h
  | cons i rest ih =>
    intro s acc hinv k v h
    rcases hf : get_artist_info env now s i with ⟨r, s', tr⟩
    have hs' : batchInv env st s' := by
      have he : s' = (get_access_token env now s).2.1 := by
        rw [← get_artist_info_state env now s i, hf]
      rw [he]; exact batchInv_step env now st s hinv
    cases r with
    | error e =>
      rw [validateArtistsLoop_cons_error env now s s' i rest acc e tr hf] at h
      rcases ih s' acc hs' k v h with hl | ⟨hm, hgood⟩
      · exact Or.inl hl
      · exact Or.inr ⟨List.mem_cons_of_mem i hm, hgood⟩
    | ok o =>
      cases o with
      | none =>
        rw [validateArtistsLoop_cons_none env now s s' i rest acc tr hf] at h
        rcases ih s' acc hs' k v h with hl | ⟨hm, hgood⟩
        · exact Or.inl hl
        · exact Or.inr ⟨List.mem_cons_of_mem i hm, hgood⟩
      | some info =>
        rw [validateArtistsLoop_cons_some env now s s' i rest acc info tr hf] at h
        by_cases hg : (truthyOpt info.id && truthyOpt info.name) = true
        · rw [if_pos hg] at h
          rcases ih s' _ hs' k v h with hl | ⟨hm, hgood⟩
          · rw [dictInsert_lookup] at hl
            by_cases hki : k = i
            · rw [if_pos hki] at hl
              have hv : v = ⟨info.id.getD "", info.name.getD ""⟩ :=
                (Option.some.inj hl).symm
              rw [Bool.and_eq_true] at hg
              obtain ⟨hgi, hgn⟩ := hg
              have hstable : (get_artist_info env now st k).1 = .ok (some info) := by
                subst hki
                exact artist_ok_stable env now st s k info hinv (by rw [hf])
              refine Or.inr ⟨hki ▸ List.mem_cons_self i rest, info, hstable, ?_, ?_, ?_, ?_⟩
              · rw [hv]; exact (truthyOpt_eq_some info.id hgi).1
              · rw [hv]; exact (truthyOpt_eq_some info.id hgi).2
              · rw [hv]; exact (truthyOpt_eq_some info.name hgn).1
              · rw [hv]; exact (truthyOpt_eq_some info.name hgn).2
            · rw [if_neg hki] at hl
              exact Or.inl hl
          · exact Or.inr ⟨List.mem_cons_of_mem i hm, hgood⟩
        · rw [if_neg hg] at h
          rcases ih s' acc hs' k v h with hl | ⟨hm, hgood⟩
          · exact Or.inl hl
          · exact Or.inr ⟨List.mem_cons_of_mem i hm, hgood⟩

/-- A response-level failure for `k` makes the per-identifier fetch fail from
every cache state, whatever the token-acquisition outcome. -/
lemma trackFetchFails_of_resp (env : Env) (now : Int) (s : CacheState)
    (k : String) (h : trackRespFails env k = true) :
    trackFetchFails env now s k = true := by
  unfold trackFetchFails
  rw [get_track_info_fst]
  rcases hg : (get_access_token env now s).1 with e | t
  · rfl
  · unfold trackRespFails at h
    cases ht : env.trackResp k with
    | netError => simp [trackFetchResult, ht]
    | resp status body =>
      rw [ht] at h
      by_cases h4 : status = 404
      · simp [trackFetchResult, ht, h4]
      · by_cases hr : raisesForStatus status = true
        · simp [trackFetchResult, ht, h4, hr]
        · simp [h4, hr] at h
          simp [trackFetchResult, ht, h4, hr, h]

/-- Artist analogue of `trackFetchFails_of_resp`. -/
lemma artistFetchFails_of_resp (env : Env) (now : Int) (s : CacheState)
    (k : String) (h : artistRespFails env k = true) :
    artistFetchFails env now s k = true := by
  unfold artistFetchFails
  rw [get_artist_info_fst]
  rcases hg : (get_access_token env now s).1 with e | t
  · rfl
  · unfold artistRespFails at h
    cases ht : env.artistResp k with
    | netError => simp [artistFetchResult, ht]
    | resp status body =>
      rw [ht] at h
      by_cases h4 : status = 404
      · simp [artistFetchResult, ht, h4]
      · by_cases hr : raisesForStatus status = true
        · simp [artistFetchResult, ht, h4, hr]
        · simp [h4, hr] at h
          simp [artistFetchResult, ht, h4, hr, h]

/-- An identifier whose fetch fails from every state is never inserted. -/
lemma validateTracksLoop_omits (env : Env) (now : Int) (k : String)
    (hfail : ∀ s, trackFetchFails env now s k = true) (ids : List String) :
    ∀ (s : CacheState) (acc : List (String × ValidEntry)),
      dictLookup k acc = none →
      dictLookup k (validateTracksLoop env now s ids acc).2 = none := by
  induction ids with
  | nil => intro s acc h; exact h
  | cons i rest ih =>
    intro s acc hacc
    rcases hf : get_track_info env now s i with ⟨r, s', tr⟩
    cases r with
    | error e =>
      rw [validateTracksLoop_cons_error env now s s' i rest acc e tr hf]
      exact ih s' acc hacc
    | ok o =>
      cases o with
      | none =>
        rw [validateTracksLoop_cons_none env now s s' i rest acc tr hf]
        exact ih s' acc hacc
      | some info =>
        rw [validateTracksLoop_cons_some env now s s' i rest acc info tr hf]
        by_cases hg : (truthyOpt info.id && truthyOpt info.name) = true
        · rw [if_pos hg]
          have hki : ¬(k = i) := by
            intro he
            have h2 := hfail s
            unfold trackFetchFails at h2
            rw [← he] at hf
            rw [hf] at h2
            simp [hg] at h2
          refine ih s' _ ?_
          rw [dictInsert_lookup, if_neg hki]
          exact hacc
        · rw [if_neg hg]
          exact ih s' acc hacc

/-- Artist analogue of `validateTracksLoop_omits`. -/
lemma validateArtistsLoop_omits (env : Env) (now : Int) (k : String)
    (hfail : ∀ s, artistFetchFails env now s k = true) (ids : List String) :
    ∀ (s : CacheState) (acc : List (String × ValidEntry)),
      dictLookup k acc = none →
      dictLookup k (validateArtistsLoop env now s ids acc).2 = none := by
  induction ids with
  | nil => intro s acc h; exact h
  | cons i rest ih =>
    intro s acc hacc
    rcases hf : get_artist_info env now s i with ⟨r, s', tr⟩
    cases r with
    | error e =>
      rw [validateArtistsLoop_cons_error env now s s' i rest acc e tr hf]
      exact ih s' acc hacc
    | ok o =>
      cases o with
      | none =>
        rw [validateArtistsLoop_cons_none env now s s' i rest acc tr hf]
        exact ih s' acc hacc
      | some info =>
        rw [validateArtistsLoop_cons_some env now s s' i rest acc info tr hf]
        by_cases hg : (truthyOpt info.id && truthyOpt info.name) = true
        · rw [if_pos hg]
          have hki : ¬(k = i) := by
            intro he
            have h2 := hfail s
            unfold artistFetchFails at h2
            rw [← he] at hf
            rw [hf] at h2
            simp [hg] at h2
          refine ih s' _ ?_
          rw [dictInsert_lookup, if_neg hki]
          exact hacc
        · rw [if_neg hg]
          exact ih s' acc hacc

/-- When token acquisition raises from state `st`, every loop iteration
raises, inserts nothing, and leaves the cache at `st`. -/
lemma validateTracksLoop_const (env : Env) (now : Int) (st : CacheState)
    (e : SpotifyError) (herr : (get_access_token env now st).1 = .error e) :
    ∀ (ids : List String) (acc : List (String × ValidEntry)),
      validateTracksLoop env now st ids acc = (st, acc) := by
  intro ids
  induction ids with
  | nil => intro acc; rfl
  | cons i rest ih =>
    intro acc
    have h1 : (get_track_info env now st i).1 = .error e := by
      rw [get_track_info_fst, herr]; rfl
    have h2 : (get_track_info env now st i).2.1 = st := by
      rw [get_track_info_state]
      exact gat_error_state env now st e herr
    rcases hf : get_track_info env now st i with ⟨r, s', tr⟩
    rw [hf] at h1 h2
    have hr : r = .error e := h1
    have hs : s' = st := h2
    rw [hr, hs] at hf
    rw [validateTracksLoop_cons_error env now st st i rest acc e tr hf]
    exact ih acc

/-- Artist analogue of `validateTracksLoop_const`. -/
lemma validateArtistsLoop_const (env : Env) (now : Int) (st : CacheState)
    (e : SpotifyError) (herr : (get_access_token env now st).1 = .error e) :
    ∀ (ids : List String) (acc : List (String × ValidEntry)),
      validateArtistsLoop env now st ids acc = (st, acc) := by
  intro ids
  induction ids with
  | nil => intro acc; rfl
  | cons i rest ih =>
    intro acc
    have h1 : (get_artist_info env now st i).1 = .error e := by
      rw [get_artist_info_fst, herr]; rfl
    have h2 : (get_artist_info env now st i).2.1 = st := by
      rw [get_artist_info_state]
      exact gat_error_state env now st e herr
    rcases hf : get_artist_info env now st i with ⟨r, s', tr⟩
    rw [hf] at h1 h2
    have hr : r = .error e := h1
    have hs : s' = st := h2
    rw [hr, hs] at hf
    rw [validateArtistsLoop_cons_error env now st st i rest acc e tr hf]
    exact ih acc

/-- Along any run of the module whose configuration is missing or falsy, the
cached token can never become truthy: the cache starts empty and the
configuration guard fires before every exchange. -/
lemma reachable_no_token (cid csec : Option String)
    (hc : (truthyOpt cid && truthyOpt csec) = false) :
    ∀ st, Reachable cid csec st → truthyOpt st.accessToken = false := by
  intro st hr
  induction hr with
  | init => rfl
  | stepToken env now st hr hid hsec ih =>
    have hce : configOk env = false := by unfold configOk; rw [hid, hsec]; exact hc
    have hmiss : cacheHit now st = false := by unfold cacheHit; rw [ih]; rfl
    rw [gat_noConfig env now st hmiss hce]
    exact ih
  | stepTrack env now st k hr hid hsec ih =>
    have hce : configOk env = false := by unfold configOk; rw [hid, hsec]; exact hc
    have hmiss : cacheHit now st = false := by unfold cacheHit; rw [ih]; rfl
    rw [get_track_info_state, gat_noConfig env now st hmiss hce]
    exact ih
  | stepArtist env now st k hr hid hsec ih =>
    have hce : configOk env = false := by unfold configOk; rw [hid, hsec]; exact hc
    have hmiss : cacheHit now st = false := by unfold cacheHit; rw [ih]; rfl
    rw [get_artist_info_state, gat_noConfig env now st hmiss hce]
    exact ih
  | stepTracksBatch env now st st' ids m hr hid hsec hb ih =>
    have hce : configOk env = false := by unfold configOk; rw [hid, hsec]; exact hc
    have hmiss : cacheHit now st = false := by unfold cacheHit; rw [ih]; rfl
    have herr : (get_access_token env now st).1 = .error .configError := by
      rw [gat_noConfig env now st hmiss hce]
    unfold validate_tracks_batch at hb
    have h2 := Except.ok.inj hb
    rw [validateTracksLoop_const env now st _ herr ids []] at h2
    injection h2 with h3 h4
    rw [← h3]
    exact ih
  | stepArtistsBatch env now st st' ids m hr hid hsec hb ih =>
    have hce : configOk env = false := by unfold configOk; rw [hid, hsec]; exact hc
    have hmiss : cacheHit now st = false := by unfold cacheHit; rw [ih]; rfl
    have herr : (get_access_token env now st).1 = .error .configError := by
      rw [gat_noConfig env now st hmiss hce]
    unfold validate_artists_batch at hb
    have h2 := Except.ok.inj hb
    rw [validateArtistsLoop_const env now st _ herr ids []] at h2
    injection h2 with h3 h4
    rw [← h3]
    exact ih

/-! ### The claims -/

/-- Claim C1: for every identifier list and every per-identifier outcome that
makes the fetch of identifier `k` fail from any cache state (an error is
raised, the empty record is returned, or the record misses `id` or `name`),
`validate_tracks_batch` and `validate_artists_batch` raise nothing — they
return a mapping — and the failing identifier is simply absent from it while
the other identifiers were still processed. -/
theorem claim_C1 (env : Env) (now : Int) (st : CacheState) (ids : List String)
    (k : String)
    (hT : ∀ s, trackFetchFails env now s k = true)
    (hA : ∀ s, artistFetchFails env now s k = true) :
    ∃ stT mT stA mA,
      validate_tracks_batch env now st ids = .ok (stT, mT) ∧
      validate_artists_batch env now st ids = .ok (stA, mA) ∧
      dictLookup k mT = none ∧ dictLookup k mA = none := by
  refine ⟨(validateTracksLoop env now st ids []).1,
    (validateTracksLoop env now st ids []).2,
    (validateArtistsLoop env now st ids []).1,
    (validateArtistsLoop env now st ids []).2, rfl, rfl, ?_, ?_⟩
  · exact validateTracksLoop_omits env now k hT ids st [] rfl
  · exact validateArtistsLoop_omits env now k hA ids st [] rfl

/-- Witness for C1: both batches at a concrete oracle where `"bogus-id"` gets
a 404, with the good id still processed. -/
theorem claim_C1_witness :
    ∃ stT mT stA mA,
      validate_tracks_batch envGood 0 initState
        ["4uLU6hMCjMI75M1A2tKUQC", "bogus-id"] = .ok (stT, mT) ∧
      validate_artists_batch envGood 0 initState
        ["4uLU6hMCjMI75M1A2tKUQC", "bogus-id"] = .ok (stA, mA) ∧
      dictLookup "bogus-id" mT = none ∧ dictLookup "bogus-id" mA = none :=
  claim_C1 envGood 0 initState ["4uLU6hMCjMI75M1A2tKUQC", "bogus-id"] "bogus-id"
    (fun s => trackFetchFails_of_resp envGood 0 s "bogus-id" (by decide))
    (fun s => artistFetchFails_of_resp envGood 0 s "bogus-id" (by decide))

/-- Claim C2: every key of the mapping `validate_tracks_batch` returns is one
of the input ids, and its value is exactly the non-empty `id` and `name` of
the record returned by the corresponding single `get_track_info` call from
the same starting state. -/
theorem claim_C2 (env : Env) (now : Int) (st : CacheState) (ids : List String)
    (st' : CacheState) (m : List (String × ValidEntry)) (k : String)
    (v : ValidEntry)
    (hb : validate_tracks_batch env now st ids = .ok (st', m))
    (hk : dictLookup k m = some v) :
    k ∈ ids ∧ goodTrackEntry env now st k v := by
  unfold validate_tracks_batch at hb
  have h2 := Except.ok.inj hb
  have hm : m = (validateTracksLoop env now st ids []).2 := by rw [h2]
  rw [hm] at hk
  rcases validateTracksLoop_lookup env now st ids st [] (Or.inl rfl) k v hk with
    hl | hr
  · simp [dictLookup] at hl
  · exact hr

/-- Witness for C2 at the spec's §8 scenario. -/
theorem claim_C2_witness :
    "4uLU6hMCjMI75M1A2tKUQC" ∈ ["4uLU6hMCjMI75M1A2tKUQC", "bogus-id"] ∧
    goodTrackEntry envGood 0 initState "4uLU6hMCjMI75M1A2tKUQC"
      ⟨"4uLU6hMCjMI75M1A2tKUQC", "Never Gonna Give You Up"⟩ :=
  claim_C2 envGood 0 initState ["4uLU6hMCjMI75M1A2tKUQC", "bogus-id"]
    ⟨some "tok", 3570⟩
    [("4uLU6hMCjMI75M1A2tKUQC",
      ⟨"4uLU6hMCjMI75M1A2tKUQC", "Never Gonna Give You Up"⟩)]
    "4uLU6hMCjMI75M1A2tKUQC"
    ⟨"4uLU6hMCjMI75M1A2tKUQC", "Never Gonna Give You Up"⟩
    (by decide) (by decide)

/-- Counterexample to C3 as stated: with the configuration missing,
credential acquisition itself fails (first conjunct), yet a batch call on a
non-empty identifier list raises nothing: both batch operations return the
empty mapping. -/
theorem claim_C3_cex :
    (get_access_token envNoConfig 0 initState).1 = .error .configError ∧
    validate_tracks_batch envNoConfig 0 initState ["4uLU6hMCjMI75M1A2tKUQC"] =
      .ok (initState, []) ∧
    validate_artists_batch envNoConfig 0 initState ["4uLU6hMCjMI75M1A2tKUQC"] =
      .ok (initState, []) := by
  exact ⟨rfl, rfl, rfl⟩

/-- Claim C3 amended: a credential-acquisition failure raised during a
per-identifier fetch is absorbed like any other per-item failure (the spec's
§9 design note records this literal behavior): with the configuration
missing or falsy and no usable cached credential, `get_access_token` raises,
while the batch operations raise nothing and return the empty mapping with
the cache unchanged. -/
theorem claim_C3_amended (env : Env) (now : Int) (st : CacheState)
    (ids : List String) (hc : configOk env = false)
    (hmiss : cacheHit now st = false) :
    get_access_token env now st = (.error .configError, st, []) ∧
    validate_tracks_batch env now st ids = .ok (st, []) ∧
    validate_artists_batch env now st ids = .ok (st, []) := by
  have hg := gat_noConfig env now st hmiss hc
  have herr : (get_access_token env now st).1 = .error .configError := by rw [hg]
  refine ⟨hg, ?_, ?_⟩
  · unfold validate_tracks_batch
    rw [validateTracksLoop_const env now st _ herr ids []]
  · unfold validate_artists_batch
    rw [validateArtistsLoop_const env now st _ herr ids []]

/-- Witness for the amended C3. -/
theorem claim_C3_amended_witness :
    configOk envNoConfig = false ∧ cacheHit 3 initState = false ∧
    (get_access_token envNoConfig 3 initState =
        (.error .configError, initState, []) ∧
      validate_tracks_batch envNoConfig 3 initState ["x", "y"] =
        .ok (initState, []) ∧
      validate_artists_batch envNoConfig 3 initState ["x", "y"] =
        .ok (initState, [])) :=
  ⟨by decide, by decide,
    claim_C3_amended envNoConfig 3 initState ["x", "y"] (by decide) (by decide)⟩

/-- Claim C4: when the service answers 404 for an identifier, the fetches
return the empty record and raise nothing, while any other failure status —
one `raise_for_status` raises on, i.e. 4xx/5xx — raises `CatalogRequestError`,
so the caller can tell the two outcomes apart. -/
theorem claim_C4 (env : Env) (now : Int) (st : CacheState) (tid aid : String)
    (hauth : authOk env now st = true) :
    (∀ b, env.trackResp tid = .resp 404 b →
      (get_track_info env now st tid).1 = .ok none) ∧
    (∀ s b, env.trackResp tid = .resp s b → 400 ≤ s → s < 600 → s ≠ 404 →
      (get_track_info env now st tid).1 = .error (.catalogError s)) ∧
    (∀ b, env.artistResp aid = .resp 404 b →
      (get_artist_info env now st aid).1 = .ok none) ∧
    (∀ s b, env.artistResp aid = .resp s b → 400 ≤ s → s < 600 → s ≠ 404 →
      (get_artist_info env now st aid).1 = .error (.catalogError s)) := by
  rcases hg : (get_access_token env now st).1 with e | t
  · unfold authOk at hauth
    rw [hg] at hauth
    simp at hauth
  · refine ⟨?_, ?_, ?_, ?_⟩
    · intro b hb
      rw [get_track_info_fst, hg]
      simp [trackFetchResult, hb]
    · intro s b hb h4 h6 hn
      have hr : raisesForStatus s = true := by
        unfold raisesForStatus
        simp only [Bool.and_eq_true, decide_eq_true_eq]
        exact ⟨h4, h6⟩
      rw [get_track_info_fst, hg]
      simp [trackFetchResult, hb, hn, hr]
    · intro b hb
      rw [get_artist_info_fst, hg]
      simp [artistFetchResult, hb]
    · intro s b hb h4 h6 hn
      have hr : raisesForStatus s = true := by
        unfold raisesForStatus
        simp only [Bool.and_eq_true, decide_eq_true_eq]
        exact ⟨h4, h6⟩
      rw [get_artist_info_fst, hg]
      simp [artistFetchResult, hb, hn, hr]

/-- Witness for C4: at `envGood`, "bogus-id" is answered 404, so both fetches
return the empty record (the 4xx/5xx conjuncts hold vacuously there). -/
theorem claim_C4_witness :
    authOk envGood 0 initState = true ∧
    ((∀ b, envGood.trackResp "bogus-id" = .resp 404 b →
      (get_track_info envGood 0 initState "bogus-id").1 = .ok none) ∧
    (∀ s b, envGood.trackResp "bogus-id" = .resp s b → 400 ≤ s → s < 600 →
      s ≠ 404 →
      (get_track_info envGood 0 initState "bogus-id").1 =
        .error (.catalogError s)) ∧
    (∀ b, envGood.artistResp "bogus-id" = .resp 404 b →
      (get_artist_info envGood 0 initState "bogus-id").1 = .ok none) ∧
    (∀ s b, envGood.artistResp "bogus-id" = .resp s b → 400 ≤ s → s < 600 →
      s ≠ 404 →
      (get_artist_info envGood 0 initState "bogus-id").1 =
        .error (.catalogError s))) :=
  ⟨by decide, claim_C4 envGood 0 initState "bogus-id" "bogus-id" (by decide)⟩

/-- Counterexample to C5 as stated: status 304 is non-2xx and non-404, yet
`get_track_info` raises no `CatalogRequestError` — it returns a full
projected record — and `validate_tracks_batch` includes rather than omits
the identifier. -/
theorem claim_C5_cex :
    (get_track_info env304 0 initState "t").1 =
      .ok (some (projectTrack sampleTrackBody)) ∧
    validate_tracks_batch env304 0 initState ["t"] =
      .ok (⟨some "tok", 3570⟩,
        [("t", ⟨"4uLU6hMCjMI75M1A2tKUQC", "Never Gonna Give You Up"⟩)]) := by
  exact ⟨rfl, rfl⟩

/-- Claim C5 amended: restricted to the statuses `raise_for_status` raises on
— 400..599 — other than 404: for these the fetches raise
`CatalogRequestError` and the batch operations omit the identifier and raise
nothing. (Non-2xx statuses outside 400..599, e.g. 304, do not raise; see the
counterexample.) -/
theorem claim_C5_amended (env : Env) (now : Int) (st : CacheState)
    (ids : List String) (k : String) (s : Nat)
    (hT : ∃ b, env.trackResp k = .resp s b)
    (hA : ∃ b, env.artistResp k = .resp s b)
    (h4 : 400 ≤ s) (h6 : s < 600) (hn : s ≠ 404)
    (hauth : authOk env now st = true) :
    (get_track_info env now st k).1 = .error (.catalogError s) ∧
    (get_artist_info env now st k).1 = .error (.catalogError s) ∧
    ∃ stT mT stA mA,
      validate_tracks_batch env now st ids = .ok (stT, mT) ∧
      validate_artists_batch env now st ids = .ok (stA, mA) ∧
      dictLookup k mT = none ∧ dictLookup k mA = none := by
  obtain ⟨bT, hbT⟩ := hT
  obtain ⟨bA, hbA⟩ := hA
  have hr : raisesForStatus s = true := by
    unfold raisesForStatus
    simp only [Bool.and_eq_true, decide_eq_true_eq]
    exact ⟨h4, h6⟩
  have htr : trackRespFails env k = true := by
    unfold trackRespFails
    rw [hbT]
    simp [hr]
  have har : artistRespFails env k = true := by
    unfold artistRespFails
    rw [hbA]
    simp [hr]
  rcases hg : (get_access_token env now st).1 with e | t
  · unfold authOk at hauth
    rw [hg] at hauth
    simp at hauth
  · refine ⟨?_, ?_,
      (validateTracksLoop env now st ids []).1,
      (validateTracksLoop env now st ids []).2,
      (validateArtistsLoop env now st ids []).1,
      (validateArtistsLoop env now st ids []).2, rfl, rfl, ?_, ?_⟩
    · rw [get_track_info_fst, hg]
      simp [trackFetchResult, hbT, hn, hr]
    · rw [get_artist_info_fst, hg]
      simp [artistFetchResult, hbA, hn, hr]
    · exact validateTracksLoop_omits env now k
        (fun s2 => trackFetchFails_of_resp env now s2 k htr) ids st [] rfl
    · exact validateArtistsLoop_omits env now k
        (fun s2 => artistFetchFails_of_resp env now s2 k har) ids st [] rfl

/-- Witness for the amended C5 at status 403. -/
theorem claim_C5_amended_witness :
    (∃ b, env403.trackResp "t" = .resp 403 b) ∧
    (∃ b, env403.artistResp "t" = .resp 403 b) ∧
    ((get_track_info env403 0 initState "t").1 =
        .error (.catalogError 403) ∧
      (get_artist_info env403 0 initState "t").1 =
        .error (.catalogError 403) ∧
      ∃ stT mT stA mA,
        validate_tracks_batch env403 0 initState ["t"] = .ok (stT, mT) ∧
        validate_artists_batch env403 0 initState ["t"] = .ok (stA, mA) ∧
        dictLookup "t" mT = none ∧ dictLookup "t" mA = none) :=
  ⟨⟨sampleTrackBody, rfl⟩, ⟨sampleArtistBody, rfl⟩,
    claim_C5_amended env403 0 initState ["t"] "t" 403
      ⟨sampleTrackBody, rfl⟩ ⟨sampleArtistBody, rfl⟩
      (by decide) (by decide) (by decide) (by decide)⟩

/-- Counterexample to C6 as stated: after a perfectly successful first
exchange whose payload declares `expires_in = 0`, the second call in
immediate succession performs another token-exchange network request
(`.postToken` trace) instead of serving the cache. -/
theorem claim_C6_cex :
    get_access_token envShortLife 5 initState =
      (.ok "tok", ⟨some "tok", -25⟩, [.postToken]) ∧
    (get_access_token envShortLife 5 ⟨some "tok", -25⟩).2.2 = [.postToken] := by
  exact ⟨rfl, rfl⟩

/-- Claim C6 amended: calling `get_access_token` twice in immediate
succession returns the identical cached token with no second network request,
provided the first call left a truthy token whose stored expiry is still
ahead of the clock (true of any 200 exchange with a non-empty token and
declared lifetime above the 30-second margin). -/
theorem claim_C6_amended (env : Env) (now : Int) (st st' : CacheState)
    (tok : String) (tr : List HttpRequest)
    (h1 : get_access_token env now st = (.ok tok, st', tr))
    (htok : truthyOpt st'.accessToken = true) (hexp : now < st'.expiresAt) :
    get_access_token env now st' = (.ok tok, st', []) := by
  have hh : cacheHit now st' = true := by
    unfold cacheHit
    rw [htok]
    simpa using hexp
  have h3 : tok = st'.accessToken.getD "" := by
    have h4 := gat_ok_token env now st tok (by rw [h1])
    rw [h1] at h4
    exact h4
  rw [gat_hit env now st' hh, h3]

/-- Witness for the amended C6: a healthy 3600-second exchange. -/
theorem claim_C6_amended_witness :
    get_access_token envGood 5 initState =
      (.ok "tok", ⟨some "tok", 3575⟩, [.postToken]) ∧
    truthyOpt (CacheState.mk (some "tok") 3575).accessToken = true ∧
    (5 : Int) < (CacheState.mk (some "tok") 3575).expiresAt ∧
    get_access_token envGood 5 ⟨some "tok", 3575⟩ =
      (.ok "tok", ⟨some "tok", 3575⟩, []) :=
  ⟨by decide, by decide, by decide,
    claim_C6_amended envGood 5 initState ⟨some "tok", 3575⟩ "tok" [.postToken]
      (by decide) (by decide) (by decide)⟩

/-- Claim C7: once the clock has reached the stored expiry (raw expiry minus
the 30-second margin) while the raw `expires_in` lifetime has not yet fully
elapsed, the next `get_access_token` call performs a new exchange request
instead of returning the old token, and a 200 answer overwrites the single
cached slot. -/
theorem claim_C7 (env : Env) (now : Int) (st : CacheState)
    (hold : truthyOpt st.accessToken = true)
    (hpassed : st.expiresAt ≤ now)
    (hraw : now < rawExpiry st)
    (hcfg : configOk env = true) :
    (get_access_token env now st).2.2 = [.postToken] ∧
    ∀ p, env.tokenResp = .resp 200 p →
      get_access_token env now st =
        (.ok (p.access_token.getD ""),
         ⟨p.access_token, now + p.expires_in.getD 3600 - 30⟩,
         [.postToken]) := by
  have hmiss : cacheHit now st = false := by
    unfold cacheHit
    rw [hold, Bool.true_and]
    simp only [decide_eq_false_iff_not]
    omega
  exact ⟨gat_miss_trace env now st hmiss hcfg,
    fun p hp => gat_fresh env now st p hmiss hcfg hp⟩

/-- Witness for C7: old token stored with expiry 10, clock at 20 (raw expiry
40 not yet reached), healthy endpoint. -/
theorem claim_C7_witness :
    truthyOpt (CacheState.mk (some "old") 10).accessToken = true ∧
    (CacheState.mk (some "old") 10).expiresAt ≤ 20 ∧
    (20 : Int) < rawExpiry ⟨some "old", 10⟩ ∧
    configOk envGood = true ∧
    ((get_access_token envGood 20 ⟨some "old", 10⟩).2.2 = [.postToken] ∧
      ∀ p, envGood.tokenResp = .resp 200 p →
        get_access_token envGood 20 ⟨some "old", 10⟩ =
          (.ok (p.access_token.getD ""),
           ⟨p.access_token, 20 + p.expires_in.getD 3600 - 30⟩,
           [.postToken])) :=
  ⟨by decide, by decide, by decide, by decide,
    claim_C7 envGood 20 ⟨some "old", 10⟩ (by decide) (by decide) (by decide)
      (by decide)⟩

/-- Counterexample to C8 as stated: a 200 exchange declaring
`expires_in = 0` returns a token with zero remaining validity against its
raw declared expiry — less than the claimed 30-second margin. -/
theorem claim_C8_cex :
    (get_access_token envShortLife 100 initState).1 = .ok "tok" ∧
    rawExpiry (get_access_token envShortLife 100 initState).2.1 - 100 < 30 := by
  exact ⟨rfl, by decide⟩

/-- Claim C8 amended: provided every 200 payload declares a lifetime of at
least 30 seconds (the default 3600 qualifies), every credential
`get_access_token` returns — cache hit or fresh exchange — has at least 30
seconds of remaining validity against its raw declared expiry at the moment
of return. -/
theorem claim_C8_amended (env : Env) (now : Int) (st : CacheState)
    (tok : String) (st' : CacheState) (tr : List HttpRequest)
    (hlife : ∀ p, env.tokenResp = .resp 200 p → 30 ≤ p.expires_in.getD 3600)
    (h : get_access_token env now st = (.ok tok, st', tr)) :
    30 ≤ rawExpiry st' - now := by
  rcases gat_cases env now st with ⟨hh, hg⟩ | ⟨_, _, hg⟩ | ⟨_, _, _, hg⟩ |
    ⟨_, _, s2, p, _, _, hg⟩ | ⟨_, _, p, hp, hg⟩ <;> rw [hg] at h <;>
      injection h with h1 h2
  · injection h2 with h3 h4
    rw [cacheHit, Bool.and_eq_true] at hh
    have hlt : now < st.expiresAt := of_decide_eq_true hh.2
    rw [← h3]
    unfold rawExpiry
    omega
  · exact Except.noConfusion h1
  · exact Except.noConfusion h1
  · exact Except.noConfusion h1
  · injection h2 with h3 h4
    have hd : 30 ≤ p.expires_in.getD 3600 := hlife p hp
    rw [← h3]
    unfold rawExpiry
    simp only
    omega

/-- Witness for the amended C8: the healthy 3600-second exchange leaves 3600
seconds of raw validity. -/
theorem claim_C8_amended_witness :
    (∀ p, envGood.tokenResp = .resp 200 p → 30 ≤ p.expires_in.getD 3600) ∧
    get_access_token envGood 5 initState =
      (.ok "tok", ⟨some "tok", 3575⟩, [.postToken]) ∧
    30 ≤ rawExpiry ⟨some "tok", 3575⟩ - 5 :=
  ⟨fun p hp => by
      simp only [envGood] at hp
      injection hp with h1 h2
      rw [← h2]
      decide,
    by decide,
    claim_C8_amended envGood 5 initState "tok" ⟨some "tok", 3575⟩ [.postToken]
      (fun p hp => by
        simp only [envGood] at hp
        injection hp with h1 h2
        rw [← h2]
        decide)
      (by decide)⟩

/-- Claim C9: in any run of the module (cache states reachable from the
import-time state under the module's fixed configuration constants), if the
application identifier or secret is missing, `get_access_token` raises the
configuration error, leaves the cache unchanged, and performs no outbound
HTTP request (empty trace). -/
theorem claim_C9 (env : Env) (now : Int) (st : CacheState)
    (hc : configOk env = false)
    (hr : Reachable env.clientId env.clientSecret st) :
    get_access_token env now st = (.error .configError, st, []) := by
  have htok : truthyOpt st.accessToken = false :=
    reachable_no_token env.clientId env.clientSecret
      (by unfold configOk at hc; exact hc) st hr
  have hmiss : cacheHit now st = false := by
    unfold cacheHit
    rw [htok]
    rfl
  exact gat_noConfig env now st hmiss hc

/-- Witness for C9 at the import-time state. -/
theorem claim_C9_witness :
    configOk envNoConfig = false ∧
    get_access_token envNoConfig 7 initState =
      (.error .configError, initState, []) :=
  ⟨by decide, claim_C9 envNoConfig 7 initState (by decide) Reachable.init⟩

/-- Claim C10: a 200 exchange whose payload lacks `access_token` raises
nothing and returns the empty string, and the cached slot then holds no
usable token: every subsequent call, at any time and against any oracle,
misses the cache, and performs the exchange request again whenever the
configuration is present. -/
theorem claim_C10 (env : Env) (now : Int) (st : CacheState) (p : TokenPayload)
    (hmiss : cacheHit now st = false) (hcfg : configOk env = true)
    (hresp : env.tokenResp = .resp 200 p) (hnone : p.access_token = none) :
    get_access_token env now st =
      (.ok "", ⟨none, now + p.expires_in.getD 3600 - 30⟩, [.postToken]) ∧
    ∀ now₂ : Int,
      cacheHit now₂ ⟨none, now + p.expires_in.getD 3600 - 30⟩ = false ∧
      ∀ env₂ : Env, configOk env₂ = true →
        (get_access_token env₂ now₂
          ⟨none, now + p.expires_in.getD 3600 - 30⟩).2.2 = [.postToken] := by
  have h1 := gat_fresh env now st p hmiss hcfg hresp
  rw [hnone] at h1
  exact ⟨h1, fun now₂ =>
    ⟨rfl, fun env₂ hc2 => gat_miss_trace env₂ now₂ _ rfl hc2⟩⟩

/-- Witness for C10 at the tokenless-200 oracle. -/
theorem claim_C10_witness :
    cacheHit 0 initState = false ∧ configOk envNoToken = true ∧
    (get_access_token envNoToken 0 initState =
        (.ok "", ⟨none, 3570⟩, [.postToken]) ∧
      ∀ now₂ : Int,
        cacheHit now₂ ⟨none, 3570⟩ = false ∧
        ∀ env₂ : Env, configOk env₂ = true →
          (get_access_token env₂ now₂ ⟨none, 3570⟩).2.2 = [.postToken]) :=
  ⟨by decide, by decide,
    claim_C10 envNoToken 0 initState ⟨none, some 3600⟩ (by decide) (by decide)
      rfl rfl⟩

end SpotifyClient
